import Mathlib

/-!
Verification of the order-processing backend's payment-webhook reconciliation
logic (`server.js`). The definitions below are a shallow embedding of the
relevant route handlers and helpers: JavaScript strings become `String`,
nullable/possibly-absent values become `Option String` with JavaScript
truthiness, database rows become a `List Pedido`, and each conditional SQL
`UPDATE` becomes a pure map over the list that also reports the affected-row
count. The HMAC-SHA256 primitive (an external library call) is a parameter.
-/

namespace Carlton

/-- JavaScript truthiness for a possibly-absent string value:
`null`/`undefined` and the empty string are falsy. -/
def jsTruthy : Option String → Bool
  | none => false
  | some s => s ≠ ""

/-- JavaScript `a || b` on possibly-absent string values: returns `a`
when it is truthy, otherwise `b`. -/
def jsOr (a b : Option String) : Option String :=
  if jsTruthy a then a else b

/-- Whitespace test used by string trimming (models `String.prototype.trim`). -/
def wsChar (c : Char) : Bool :=
  c = ' ' ∨ c = '\t' ∨ c = '\n' ∨ c = '\r'

/-- Trim leading and trailing whitespace (models `String.prototype.trim`). -/
def jsTrim (s : String) : String :=
  ⟨((s.data.dropWhile wsChar).reverse.dropWhile wsChar).reverse⟩

/-- Helper for `jsSplit`: walk the characters, cutting at the separator. -/
def jsSplitAux (sep : Char) : List Char → List Char → List String
  | [], acc => [⟨acc.reverse⟩]
  | c :: rest, acc =>
    if c = sep then ⟨acc.reverse⟩ :: jsSplitAux sep rest []
    else jsSplitAux sep rest (c :: acc)

/-- JavaScript `String.prototype.split` with a one-character separator
(`''.split(x) = ['']`, separators at the ends produce empty fields). -/
def jsSplit (s : String) (sep : Char) : List String :=
  jsSplitAux sep s.data []

/-- Value of a hexadecimal digit character, if it is one
(both lowercase and uppercase are accepted, as in `Buffer.from(_, 'hex')`). -/
def hexDigitVal (c : Char) : Option Nat :=
  if '0' ≤ c ∧ c ≤ '9' then some (c.toNat - '0'.toNat)
  else if 'a' ≤ c ∧ c ≤ 'f' then some (c.toNat - 'a'.toNat + 10)
  else if 'A' ≤ c ∧ c ≤ 'F' then some (c.toNat - 'A'.toNat + 10)
  else none

/-- Node `Buffer.from(s, 'hex')` semantics on the character list: decode
complete pairs of hex digits from the left, stopping at the first invalid
or incomplete pair. -/
def hexDecodeAux : List Char → List Nat
  | c1 :: c2 :: rest =>
    match hexDigitVal c1, hexDigitVal c2 with
    | some a, some b => (16 * a + b) :: hexDecodeAux rest
    | _, _ => []
  | _ => []

/-- Node `Buffer.from(s, 'hex')` as a list of byte values. -/
def hexDecode (s : String) : List Nat :=
  hexDecodeAux s.data

/-- Lowercase hex digit character for a value below 16. -/
def hexDigitChar (n : Nat) : Char :=
  if n < 10 then Char.ofNat ('0'.toNat + n) else Char.ofNat ('a'.toNat + n - 10)

/-- Two lowercase hex digits of one byte (models one byte of `digest('hex')`). -/
def hexEncodeByte (b : Nat) : List Char :=
  [hexDigitChar (b / 16), hexDigitChar (b % 16)]

/-- Lowercase hex string of a byte list (models Node `digest('hex')`). -/
def hexEncode (bs : List Nat) : String :=
  ⟨bs.flatMap hexEncodeByte⟩

/-- The inbound payment-webhook request, as the handler sees it: the four
query parameters (`topic`, `type`, `id`, `data.id`) and the two headers
(`x-signature`, `x-request-id`). Absent values are `none`. -/
structure WebhookReq where
  topic : Option String
  typ : Option String
  id : Option String
  dataId : Option String
  xSignature : Option String
  xRequestId : Option String
  deriving DecidableEq, Repr

/-- Result of `validateMpWebhook`: the `ok` flag and the reported reason. -/
structure SigResult where
  ok : Bool
  reason : String
  deriving DecidableEq, Repr

/-- `parseXSignature` from `server.js`: split the raw header on `,`, split
each part on `=`, skip parts with a falsy key or value, trim, and record the
`ts` and `v1` fields (later occurrences overwrite earlier ones). -/
def parseXSignature (raw : String) : Option String × Option String :=
  (jsSplit raw ',').foldl
    (fun out p =>
      match jsSplit p '=' with
      | k :: v :: _ =>
        if k = "" ∨ v = "" then out
        else
          let key := jsTrim k
          let val := jsTrim v
          let out1 := if key = "ts" then (some val, out.2) else out
          if key = "v1" then (out1.1, some val) else out1
      | _ => out)
    (none, none)

/-- The canonical manifest string
`id:<id>;request-id:<request-id>;ts:<ts>;` built in `validateMpWebhook`. -/
def mpManifest (id requestId ts : String) : String :=
  "id:" ++ jsTrim id ++ ";request-id:" ++ jsTrim requestId ++ ";ts:" ++ jsTrim ts ++ ";"

/-- `validateMpWebhook` from `server.js`. `hmac` abstracts
`crypto.createHmac('sha256', secret).update(m).digest()` as a byte list; the
code hex-encodes it (`digest('hex')`) and then hex-decodes both it and the
`v1` component before a length check and a constant-time byte comparison. -/
def validateMpWebhook (hmac : String → String → List Nat) (secret : Option String)
    (req : WebhookReq) : SigResult :=
  if jsTruthy secret = false then ⟨true, "disabled"⟩
  else
    if jsTruthy req.xSignature = false then ⟨false, "missing_signature"⟩
    else if jsTruthy req.xRequestId = false then ⟨false, "missing_request_id"⟩
    else
      let parsed := parseXSignature (req.xSignature.getD "")
      if jsTruthy parsed.1 = false ∨ jsTruthy parsed.2 = false then
        ⟨false, "bad_signature_format"⟩
      else
        let idOpt := jsOr req.id req.dataId
        if jsTruthy idOpt = false then ⟨false, "missing_id"⟩
        else
          let manifest :=
            mpManifest (idOpt.getD "") (req.xRequestId.getD "") (parsed.1.getD "")
          let expected := hexDecode (hexEncode (hmac (secret.getD "") manifest))
          let received := hexDecode (jsTrim (parsed.2.getD ""))
          if expected.length ≠ received.length then ⟨false, "invalid_signature"⟩
          else if expected = received then ⟨true, "ok"⟩
          else ⟨false, "invalid_signature"⟩

/-! ## The Order Store

One relational table of orders (`pedidos`). A database state is a list of
rows; a conditional `UPDATE ... WHERE pred` is a map over the rows paired
with the affected-row count, exactly the two facts the code consumes. -/

/-- One row of the `pedidos` table (the columns the verified routes touch). -/
structure Pedido where
  id : Nat
  status : String
  mercado_pago_id : Option String
  metodo_pagamento : Option String
  final_cartao : Option String
  melhor_envio_id : Option String
  cpf_cliente : String
  email_cliente : String
  valor_total : ℚ
  expiracao_pix : Int
  data_criacao : Int
  deriving DecidableEq, Repr

/-- A conditional single-table `UPDATE`: rewrite every row satisfying the
`WHERE` predicate and report how many rows were affected. -/
def updateWhere (pred : Pedido → Bool) (f : Pedido → Pedido) (db : List Pedido) :
    List Pedido × Nat :=
  (db.map (fun p => if pred p then f p else p), (db.filter pred).length)

/-- The authoritative payment record fetched from the gateway
(`new Payment(client).get({...})`). `card` holds `last_four_digits` when the
payment has a card. -/
structure PaymentInfo where
  id : String
  status : String
  payment_type_id : Option String
  payment_method_id : Option String
  card : Option String
  external_reference : Option String
  deriving DecidableEq, Repr

/-- The payment-method label computed in the approved branch of the webhook. -/
def metodoPagamento (payment : PaymentInfo) : String :=
  if payment.payment_type_id = some "credit_card" then "Cartão de Crédito"
  else if payment.payment_type_id = some "ticket" then "Boleto"
  else if payment.payment_method_id = some "pix" then "PIX"
  else if jsTruthy payment.payment_method_id then payment.payment_method_id.getD ""
  else "Não especificado"

/-- The approved-payment conditional update:
`UPDATE pedidos SET status='EM_PRODUCAO', mercado_pago_id=?, metodo_pagamento=?,
final_cartao=? WHERE id=? AND status IN ('AGUARDANDO_PAGAMENTO','PAGAMENTO_PENDENTE')`. -/
def aprovadoUpdate (payment : PaymentInfo) (pedidoId : String) (db : List Pedido) :
    List Pedido × Nat :=
  updateWhere
    (fun p => toString p.id == pedidoId &&
      (p.status == "AGUARDANDO_PAGAMENTO" || p.status == "PAGAMENTO_PENDENTE"))
    (fun p =>
      { p with
        status := "EM_PRODUCAO"
        mercado_pago_id := some payment.id
        metodo_pagamento := some (metodoPagamento payment)
        final_cartao := payment.card })
    db

/-- The pending-payment conditional update:
`UPDATE pedidos SET status='PAGAMENTO_PENDENTE', mercado_pago_id=?
WHERE id=? AND status='AGUARDANDO_PAGAMENTO'`. -/
def pendenteUpdate (payment : PaymentInfo) (pedidoId : String) (db : List Pedido) :
    List Pedido × Nat :=
  updateWhere
    (fun p => toString p.id == pedidoId && p.status == "AGUARDANDO_PAGAMENTO")
    (fun p => { p with status := "PAGAMENTO_PENDENTE", mercado_pago_id := some payment.id })
    db

/-- Observable actions of one webhook delivery, in execution order. -/
inductive Action where
  | sigCheck
  | gatewayLookup
  | readOrder
  | condUpdate (target : String) (affected : Nat)
  | reRead
  | sendConfirmEmail
  | bookCarrier
  deriving DecidableEq, Repr

/-- What one delivery of the payment webhook produces: the HTTP status and
body, the database afterwards, and the ordered action trace. -/
structure WebhookOutcome where
  status : Nat
  body : String
  db : List Pedido
  trace : List Action
  deriving DecidableEq, Repr

/-- The collaborators of the webhook handler: the configured shared secret,
the HMAC primitive, the gateway lookup (`none` models both a thrown lookup
error and a null payment), whether the confirmation email send reports
success (failures are logged, never thrown), and the carrier booking result
(`none` models a thrown booking error; `some meId` a response whose `id`
field is `meId`). -/
structure WebhookEnv where
  secret : Option String
  hmac : String → String → List Nat
  paymentLookup : String → Option PaymentInfo
  emailOk : Bool
  bookingResult : Option (Option String)

/-- The write performed by a successful carrier booking:
`UPDATE pedidos SET melhor_envio_id = ? WHERE id = ?`. -/
def melhorEnvioWrite (pedidoId : String) (meId : Option String)
    (db : List Pedido) : List Pedido × Nat :=
  updateWhere (fun p => toString p.id == pedidoId)
    (fun p => { p with melhor_envio_id := meId }) db

/-- The approved branch of the webhook: run the conditional update; on zero
affected rows stop as an idempotent no-op; otherwise re-read the order, send
the confirmation email, and attempt the carrier booking (which on success
with a truthy id writes `melhor_envio_id`, and on a thrown error is caught
by the route's catch, still answering 200). -/
def processApproved (env : WebhookEnv) (payment : PaymentInfo) (pedidoId : String)
    (db : List Pedido) : WebhookOutcome :=
  if (aprovadoUpdate payment pedidoId db).2 = 0 then
    ⟨200, "Ok", (aprovadoUpdate payment pedidoId db).1,
      [Action.condUpdate "EM_PRODUCAO" (aprovadoUpdate payment pedidoId db).2]⟩
  else
    ⟨200, "Ok",
      (match env.bookingResult with
        | none => (aprovadoUpdate payment pedidoId db).1
        | some meId =>
          if jsTruthy meId then
            (melhorEnvioWrite pedidoId meId (aprovadoUpdate payment pedidoId db).1).1
          else (aprovadoUpdate payment pedidoId db).1),
      [Action.condUpdate "EM_PRODUCAO" (aprovadoUpdate payment pedidoId db).2,
       Action.reRead, Action.sendConfirmEmail, Action.bookCarrier]⟩

/-- The non-approved branch of the webhook: the conditional update to
`PAGAMENTO_PENDENTE`, with no side effects either way. -/
def processPending (payment : PaymentInfo) (pedidoId : String)
    (db : List Pedido) : WebhookOutcome :=
  ⟨200, "Ok", (pendenteUpdate payment pedidoId db).1,
    [Action.condUpdate "PAGAMENTO_PENDENTE" (pendenteUpdate payment pedidoId db).2]⟩

/-- The `try` block of `/notificacao-pagamento` after the signature passed:
resolve the payment id, fetch the payment, find the referenced order, and
dispatch on the approved/pending classification. Every early exit answers
200 `Ok`. -/
def notificacaoPagamentoTry (env : WebhookEnv) (req : WebhookReq)
    (db : List Pedido) : WebhookOutcome :=
  if jsTruthy (jsOr req.id req.dataId) = false then ⟨200, "Ok", db, []⟩
  else
    match env.paymentLookup ((jsOr req.id req.dataId).getD "") with
    | none => ⟨200, "Ok", db, [Action.gatewayLookup]⟩
    | some payment =>
      if jsTruthy payment.external_reference = false then
        ⟨200, "Ok", db, [Action.gatewayLookup]⟩
      else
        if (db.filter
            (fun p => toString p.id == payment.external_reference.getD "")).isEmpty then
          ⟨200, "Ok", db, [Action.gatewayLookup, Action.readOrder]⟩
        else if payment.status == "approved" then
          let r := processApproved env payment (payment.external_reference.getD "") db
          { r with trace := Action.gatewayLookup :: Action.readOrder :: r.trace }
        else
          let r := processPending payment (payment.external_reference.getD "") db
          { r with trace := Action.gatewayLookup :: Action.readOrder :: r.trace }

/-- The `/notificacao-pagamento` route: acknowledge non-`payment` topics
before any verification, reject a failed signature with 401, and otherwise
run the reconciliation, whose every outcome (including caught internal
errors) is acknowledged with 200. -/
def notificacaoPagamento (env : WebhookEnv) (req : WebhookReq)
    (db : List Pedido) : WebhookOutcome :=
  if jsOr req.topic req.typ ≠ some "payment" then ⟨200, "Ignored", db, []⟩
  else
    let sig := validateMpWebhook env.hmac env.secret req
    if sig.ok then
      let r := notificacaoPagamentoTry env req db
      { r with trace := Action.sigCheck :: r.trace }
    else ⟨401, "Invalid signature", db, [Action.sigCheck]⟩

/-- The status relation allowed to one payment-webhook delivery: unchanged,
a move into `EM_PRODUCAO` from its predecessor set
`{AGUARDANDO_PAGAMENTO, PAGAMENTO_PENDENTE}`, or a move into
`PAGAMENTO_PENDENTE` from `AGUARDANDO_PAGAMENTO` alone. -/
def statusStepOk (s s' : String) : Prop :=
  s' = s ∨
  (s' = "EM_PRODUCAO" ∧ (s = "AGUARDANDO_PAGAMENTO" ∨ s = "PAGAMENTO_PENDENTE")) ∨
  (s' = "PAGAMENTO_PENDENTE" ∧ s = "AGUARDANDO_PAGAMENTO")

/-! ## The Expiry Sweep (`/checar-pedidos-expirados`) -/

/-- The sweep's scan:
`SELECT * FROM pedidos WHERE status IN ('AGUARDANDO_PAGAMENTO','PAGAMENTO_PENDENTE')
AND expiracao_pix < NOW()`. -/
def expiredScan (db : List Pedido) (now : Int) : List Pedido :=
  db.filter (fun p =>
    (p.status == "AGUARDANDO_PAGAMENTO" || p.status == "PAGAMENTO_PENDENTE") &&
    decide (p.expiracao_pix < now))

/-- The sweep's per-row update:
`UPDATE pedidos SET status = 'CANCELADO_POR_EXPIRACAO' WHERE id = ?` —
its `WHERE` clause names the id only, with no condition on the current
status. -/
def sweepUpdateRow (pedidoId : Nat) (db : List Pedido) : List Pedido × Nat :=
  updateWhere (fun p => p.id == pedidoId)
    (fun p => { p with status := "CANCELADO_POR_EXPIRACAO" }) db

/-- One run of the sweep against a database snapshot: scan once, then apply
the per-row update (and send the expiry email) for each selected row. -/
def checarPedidosExpirados (db : List Pedido) (now : Int) : List Pedido × Nat :=
  ((expiredScan db now).foldl (fun acc p => (sweepUpdateRow p.id acc).1) db,
    (expiredScan db now).length)

/-! ## Checkout creation (`/criar-preferencia`) -/

/-- One cart line item as the checkout endpoint receives it. -/
structure CartItem where
  unit_price : ℚ
  quantity : ℚ
  deriving DecidableEq, Repr

/-- The total computed once at creation:
`items.reduce((sum, item) => sum + item.unit_price * item.quantity, 0) + shipmentCost`. -/
def criarPreferenciaTotal (items : List CartItem) (shipmentCost : ℚ) : ℚ :=
  items.foldl (fun sum item => sum + item.unit_price * item.quantity) 0 + shipmentCost

/-- The row inserted by `/criar-preferencia`: status `AGUARDANDO_PAGAMENTO`,
`valor_total` = the computed total, `expiracao_pix` = creation time plus the
60-minute payment window. -/
def criarPedido (items : List CartItem) (shipmentCost : ℚ) (cpf email : String)
    (nowMs : Int) (newId : Nat) : Pedido :=
  ⟨newId, "AGUARDANDO_PAGAMENTO", none, none, none, none, cpf, email,
    criarPreferenciaTotal items shipmentCost, nowMs + 60 * 60 * 1000, nowMs⟩

/-! ## Self-service order lookup (`/rastrear-pedido`) -/

/-- `String(cpf).replace(/\D/g, '')`: keep only the decimal digits. -/
def onlyDigits (s : String) : String :=
  ⟨s.data.filter (fun c => '0' ≤ c ∧ c ≤ '9')⟩

/-- The distinguishable responses of `/rastrear-pedido`: the 400 validation
error, the uniform 404, or the 200 snapshot of the matched order. -/
inductive RastreioResp where
  | badRequest (error : String)
  | notFound (error : String)
  | found (pedidoId : Nat) (status : String)
  deriving DecidableEq, Repr

/-- `/rastrear-pedido`: require both fields, clean the CPF, select by
`cpf_cliente = ? AND email_cliente = ?` ordered by `data_criacao DESC`
limited to one row, and answer one uniform not-found error when nothing
matches. -/
def rastrearPedido (db : List Pedido) (cpf email : Option String) : RastreioResp :=
  if jsTruthy cpf = false ∨ jsTruthy email = false then
    RastreioResp.badRequest "CPF e e-mail são obrigatórios."
  else
    match db.filter (fun p =>
        p.cpf_cliente == onlyDigits (cpf.getD "") && p.email_cliente == email.getD "") with
    | [] => RastreioResp.notFound "Nenhum pedido encontrado para o CPF e e-mail informados."
    | p :: rest =>
      let chosen := rest.foldl
        (fun a b => if a.data_criacao < b.data_criacao then b else a) p
      RastreioResp.found chosen.id chosen.status

/-! ## Round-trip of hex encoding, used to reduce the verifier's comparison
to equality with the raw HMAC bytes -/

theorem hexDigitVal_hexDigitChar {n : Nat} (h : n < 16) :
    hexDigitVal (hexDigitChar n) = some n := by
  interval_cases n <;> decide

theorem hexDecodeAux_encodeByte {b : Nat} (hb : b < 256) (rest : List Char) :
    hexDecodeAux (hexEncodeByte b ++ rest) = b :: hexDecodeAux rest := by
  have h1 : b / 16 < 16 := Nat.div_lt_of_lt_mul (by omega)
  have h2 : b % 16 < 16 := Nat.mod_lt _ (by omega)
  simp only [hexEncodeByte, List.cons_append, List.nil_append, hexDecodeAux,
    hexDigitVal_hexDigitChar h1, hexDigitVal_hexDigitChar h2]
  congr 1
  omega

theorem hexDecode_hexEncode {bs : List Nat} (h : ∀ b ∈ bs, b < 256) :
    hexDecode (hexEncode bs) = bs := by
  induction bs with
  | nil => rfl
  | cons b rest ih =>
    have hb : b < 256 := h b (List.mem_cons_self b rest)
    have hrest : ∀ x ∈ rest, x < 256 := fun x hx => h x (List.mem_cons_of_mem _ hx)
    simp only [hexDecode, hexEncode, List.flatMap_cons] at *
    rw [hexDecodeAux_encodeByte hb]
    exact congrArg (b :: ·) (ih hrest)

/-! ## Claims C5 and C6: the Signature Verifier -/

/-- C5: with a shared secret configured, once the presence/format checks pass
(signature header present, request-id header present, both `ts` and `v1`
parsed and non-empty, payment id resolvable from the query), the request is
accepted exactly when the hash carried in the `v1` component equals the
HMAC-SHA256, keyed with the secret, of the manifest
`id:<id>;request-id:<request-id>;ts:<ts>;`; a tampered hash is rejected and
reported as `invalid_signature`; and the five failure modes (missing
signature, missing request id, malformed signature format, missing payment
id, hash mismatch) are each reported with a distinct reason. -/
theorem validateMpWebhook_spec :
    (∀ (hmac : String → String → List Nat) (sec : String) (req : WebhookReq)
        (sigRaw reqId ts v1 idv : String),
      sec ≠ "" →
      req.xSignature = some sigRaw → sigRaw ≠ "" →
      req.xRequestId = some reqId → reqId ≠ "" →
      parseXSignature sigRaw = (some ts, some v1) → ts ≠ "" → v1 ≠ "" →
      jsOr req.id req.dataId = some idv → idv ≠ "" →
      (∀ b ∈ hmac sec (mpManifest idv reqId ts), b < 256) →
      ((validateMpWebhook hmac (some sec) req).ok = true ↔
        hexDecode (jsTrim v1) = hmac sec (mpManifest idv reqId ts)))
    ∧ (∀ (hmac : String → String → List Nat) (sec : String) (req : WebhookReq),
      sec ≠ "" → jsTruthy req.xSignature = false →
      validateMpWebhook hmac (some sec) req = ⟨false, "missing_signature"⟩)
    ∧ (∀ (hmac : String → String → List Nat) (sec : String) (req : WebhookReq),
      sec ≠ "" → jsTruthy req.xSignature = true → jsTruthy req.xRequestId = false →
      validateMpWebhook hmac (some sec) req = ⟨false, "missing_request_id"⟩)
    ∧ (∀ (hmac : String → String → List Nat) (sec : String) (req : WebhookReq),
      sec ≠ "" → jsTruthy req.xSignature = true → jsTruthy req.xRequestId = true →
      (jsTruthy (parseXSignature (req.xSignature.getD "")).1 = false ∨
        jsTruthy (parseXSignature (req.xSignature.getD "")).2 = false) →
      validateMpWebhook hmac (some sec) req = ⟨false, "bad_signature_format"⟩)
    ∧ (∀ (hmac : String → String → List Nat) (sec : String) (req : WebhookReq),
      sec ≠ "" → jsTruthy req.xSignature = true → jsTruthy req.xRequestId = true →
      jsTruthy (parseXSignature (req.xSignature.getD "")).1 = true →
      jsTruthy (parseXSignature (req.xSignature.getD "")).2 = true →
      jsTruthy (jsOr req.id req.dataId) = false →
      validateMpWebhook hmac (some sec) req = ⟨false, "missing_id"⟩)
    ∧ (∀ (hmac : String → String → List Nat) (sec : String) (req : WebhookReq)
        (sigRaw reqId ts v1 idv : String),
      sec ≠ "" →
      req.xSignature = some sigRaw → sigRaw ≠ "" →
      req.xRequestId = some reqId → reqId ≠ "" →
      parseXSignature sigRaw = (some ts, some v1) → ts ≠ "" → v1 ≠ "" →
      jsOr req.id req.dataId = some idv → idv ≠ "" →
      (∀ b ∈ hmac sec (mpManifest idv reqId ts), b < 256) →
      hexDecode (jsTrim v1) ≠ hmac sec (mpManifest idv reqId ts) →
      validateMpWebhook hmac (some sec) req = ⟨false, "invalid_signature"⟩)
    ∧ ("missing_signature" ≠ "missing_request_id" ∧
       "missing_signature" ≠ "bad_signature_format" ∧
       "missing_signature" ≠ "missing_id" ∧
       "missing_signature" ≠ "invalid_signature" ∧
       "missing_request_id" ≠ "bad_signature_format" ∧
       "missing_request_id" ≠ "missing_id" ∧
       "missing_request_id" ≠ "invalid_signature" ∧
       "bad_signature_format" ≠ "missing_id" ∧
       "bad_signature_format" ≠ "invalid_signature" ∧
       "missing_id" ≠ "invalid_signature") := by
  refine ⟨?_, ?_, ?_, ?_, ?_, ?_, ?_⟩
  · intro hmac sec req sigRaw reqId ts v1 idv hsec hsig hsigT hreq hreqT hparse hts hv1 hid hidT hb
    have hexp := hexDecode_hexEncode hb
    have hsecT : jsTruthy (some sec) = true := by simp [jsTruthy, hsec]
    have h1 : jsTruthy req.xSignature = true := by rw [hsig]; simp [jsTruthy, hsigT]
    have h2 : jsTruthy req.xRequestId = true := by rw [hreq]; simp [jsTruthy, hreqT]
    have h3 : parseXSignature (req.xSignature.getD "") = (some ts, some v1) := by
      rw [hsig]; exact hparse
    have h4 : jsTruthy (some ts) = true := by simp [jsTruthy, hts]
    have h5 : jsTruthy (some v1) = true := by simp [jsTruthy, hv1]
    have h6 : jsTruthy (some idv) = true := by simp [jsTruthy, hidT]
    have h1a : jsTruthy (some sigRaw) = true := by simp [jsTruthy, hsigT]
    have h2a : jsTruthy (some reqId) = true := by simp [jsTruthy, hreqT]
    simp only [validateMpWebhook, hsecT, h1, h2, h3, hid, hreq, h4, h5, h6, h1a, h2a,
      Option.getD_some, Bool.true_eq_false, if_false, or_self, hexp]
    constructor
    · intro h
      by_cases hlen : (hmac sec (mpManifest idv reqId ts)).length =
          (hexDecode (jsTrim v1)).length
      · simp only [hlen, ne_eq, not_true_eq_false, if_false] at h
        by_cases heq : hmac sec (mpManifest idv reqId ts) = hexDecode (jsTrim v1)
        · exact heq.symm
        · simp [heq] at h
      · simp [hlen] at h
    · intro h
      simp [h]
  · intro hmac sec req hsec hsig
    have hsecT : jsTruthy (some sec) = true := by simp [jsTruthy, hsec]
    simp [validateMpWebhook, hsecT, hsig]
  · intro hmac sec req hsec hsig hreq
    have hsecT : jsTruthy (some sec) = true := by simp [jsTruthy, hsec]
    simp [validateMpWebhook, hsecT, hsig, hreq]
  · intro hmac sec req hsec hsig hreq hbad
    have hsecT : jsTruthy (some sec) = true := by simp [jsTruthy, hsec]
    simp only [validateMpWebhook, hsecT, hsig, hreq, Bool.true_eq_false, if_false]
    simp [hbad]
  · intro hmac sec req hsec hsig hreq hts hv1 hid
    have hsecT : jsTruthy (some sec) = true := by simp [jsTruthy, hsec]
    simp only [validateMpWebhook, hsecT, hsig, hreq, hts, hv1, hid,
      Bool.true_eq_false, if_false]
    simp [hts, hv1, hid]
  · intro hmac sec req sigRaw reqId ts v1 idv hsec hsig hsigT hreq hreqT hparse hts hv1 hid hidT hb hne
    have hexp := hexDecode_hexEncode hb
    have hsecT : jsTruthy (some sec) = true := by simp [jsTruthy, hsec]
    have h1 : jsTruthy req.xSignature = true := by rw [hsig]; simp [jsTruthy, hsigT]
    have h2 : jsTruthy req.xRequestId = true := by rw [hreq]; simp [jsTruthy, hreqT]
    have h3 : parseXSignature (req.xSignature.getD "") = (some ts, some v1) := by
      rw [hsig]; exact hparse
    have h4 : jsTruthy (some ts) = true := by simp [jsTruthy, hts]
    have h5 : jsTruthy (some v1) = true := by simp [jsTruthy, hv1]
    have h6 : jsTruthy (some idv) = true := by simp [jsTruthy, hidT]
    have h1a : jsTruthy (some sigRaw) = true := by simp [jsTruthy, hsigT]
    have h2a : jsTruthy (some reqId) = true := by simp [jsTruthy, hreqT]
    simp only [validateMpWebhook, hsecT, h1, h2, h3, hid, hreq, h4, h5, h6, h1a, h2a,
      Option.getD_some, Bool.true_eq_false, if_false, or_self, hexp]
    have hne2 : ¬ hmac sec (mpManifest idv reqId ts) = hexDecode (jsTrim v1) :=
      fun h => hne h.symm
    by_cases hlen : (hmac sec (mpManifest idv reqId ts)).length =
        (hexDecode (jsTrim v1)).length
    · simp [hlen, hne2]
    · simp [hlen]
  · refine ⟨?_, ?_, ?_, ?_, ?_, ?_, ?_, ?_, ?_, ?_⟩ <;> decide

/-- C6: with no shared secret configured (absent, or empty hence falsy),
signature verification always succeeds, whatever the request carries. -/
theorem validateMpWebhook_disabled (hmac : String → String → List Nat)
    (secret : Option String) (req : WebhookReq) (h : jsTruthy secret = false) :
    validateMpWebhook hmac secret req = ⟨true, "disabled"⟩ := by
  simp [validateMpWebhook, h]

/-- Witness for C6 at a concrete request: no secret, arbitrary headers. -/
theorem validateMpWebhook_disabled_witness :
    validateMpWebhook (fun _ _ => []) none
      ⟨some "payment", none, some "1", none, none, none⟩ = ⟨true, "disabled"⟩ :=
  validateMpWebhook_disabled (fun _ _ => []) none
    ⟨some "payment", none, some "1", none, none, none⟩ (by decide)

/-- Witness for C5: a concrete request whose `v1` hex-decodes exactly to the
(abstracted) HMAC bytes `[0, 255]` over the manifest `id:42;request-id:rid;ts:1;`,
with every presence hypothesis discharged by computation. -/
theorem validateMpWebhook_spec_witness :
    (validateMpWebhook (fun _ _ => [0, 255]) (some "s")
        ⟨some "payment", none, some "42", none, some "ts=1,v1=00ff", some "rid"⟩).ok = true ↔
      hexDecode (jsTrim "00ff") =
        (fun _ _ => [0, 255]) "s" (mpManifest "42" "rid" "1") :=
  validateMpWebhook_spec.1 (fun _ _ => [0, 255]) "s"
    ⟨some "payment", none, some "42", none, some "ts=1,v1=00ff", some "rid"⟩
    "ts=1,v1=00ff" "rid" "1" "00ff" "42"
    (by decide) rfl (by decide) rfl (by decide) (by decide) (by decide) (by decide)
    (by decide) (by decide) (by decide)

/-! ## Supporting lemmas about conditional updates -/

theorem updateWhere_fst_length (pred : Pedido → Bool) (f : Pedido → Pedido)
    (db : List Pedido) : (updateWhere pred f db).1.length = db.length := by
  simp [updateWhere]

theorem updateWhere_get (pred : Pedido → Bool) (f : Pedido → Pedido)
    (db : List Pedido) (i : Nat) (hi : i < db.length)
    (hi' : i < (updateWhere pred f db).1.length) :
    (updateWhere pred f db).1.get ⟨i, hi'⟩ =
      if pred (db.get ⟨i, hi⟩) then f (db.get ⟨i, hi⟩) else db.get ⟨i, hi⟩ := by
  simp [updateWhere, List.get_eq_getElem]

theorem updateWhere_zero (pred : Pedido → Bool) (f : Pedido → Pedido)
    (db : List Pedido) (h : (updateWhere pred f db).2 = 0) :
    (updateWhere pred f db).1 = db := by
  induction db with
  | nil => rfl
  | cons p rest ih =>
    by_cases hp : pred p
    · exfalso
      simp [updateWhere, List.filter_cons, hp] at h
    · simp only [updateWhere, List.filter_cons, hp, List.map_cons, if_neg,
        Bool.false_eq_true, not_false_eq_true, List.length_cons] at h ⊢
      have := ih (by simpa [updateWhere] using h)
      simp only [updateWhere, Prod.mk.injEq] at this
      rw [this]

theorem updateWhere_mem_of_pred (pred : Pedido → Bool) (f : Pedido → Pedido)
    (db : List Pedido) (p : Pedido) (hp : p ∈ db) (hpred : pred p = true) :
    f p ∈ (updateWhere pred f db).1 := by
  simp only [updateWhere]
  have : f p = (fun q => if pred q then f q else q) p := by simp [hpred]
  rw [this]
  exact List.mem_map_of_mem _ hp

theorem updateWhere_pred_of_affected (pred : Pedido → Bool) (f : Pedido → Pedido)
    (db : List Pedido) (h : (updateWhere pred f db).2 ≠ 0) :
    ∃ p ∈ db, pred p = true := by
  simp only [updateWhere] at h
  rcases List.exists_mem_of_length_pos (Nat.pos_of_ne_zero h) with ⟨p, hp⟩
  exact ⟨p, List.mem_of_mem_filter hp, List.of_mem_filter hp⟩

/-- With pairwise-distinct stringified ids (the table's primary key), any
`WHERE id = ? AND ...` predicate matches at most one row. -/
theorem filter_key_length_le_one (db : List Pedido)
    (hnodup : (db.map (fun p => toString p.id)).Nodup) (pid : String)
    (q : Pedido → Bool) :
    (db.filter (fun p => toString p.id == pid && q p)).length ≤ 1 := by
  induction db with
  | nil => simp
  | cons p rest ih =>
    simp only [List.map_cons, List.nodup_cons] at hnodup
    by_cases hp : (toString p.id == pid && q p) = true
    · have hkey : toString p.id = pid := by
        have := (Bool.and_eq_true _ _).mp hp
        exact beq_iff_eq.mp this.1
      have hrest : rest.filter (fun r => toString r.id == pid && q r) = [] := by
        rw [List.filter_eq_nil_iff]
        intro r hr hcontra
        have hkr : toString r.id = pid := by
          have := (Bool.and_eq_true _ _).mp hcontra
          exact beq_iff_eq.mp this.1
        exact hnodup.1 (by
          rw [← hkey] at hkr
          exact hkr ▸ List.mem_map_of_mem (fun p => toString p.id) hr)
      simp [List.filter_cons, hp, hrest]
    · simp only [List.filter_cons, hp, Bool.false_eq_true, if_neg, not_false_eq_true]
      exact ih hnodup.2

theorem updateWhere_status_preserved (pred : Pedido → Bool) (f : Pedido → Pedido)
    (hf : ∀ p, (f p).status = p.status) (db : List Pedido) (i : Nat)
    (hi : i < db.length) (hi' : i < (updateWhere pred f db).1.length) :
    ((updateWhere pred f db).1.get ⟨i, hi'⟩).status = (db.get ⟨i, hi⟩).status := by
  rw [updateWhere_get pred f db i hi hi']
  split
  · exact hf _
  · rfl

/-- Every branch of the webhook's `try` block answers HTTP 200. -/
theorem notificacaoPagamentoTry_status (env : WebhookEnv) (req : WebhookReq)
    (db : List Pedido) : (notificacaoPagamentoTry env req db).status = 200 := by
  unfold notificacaoPagamentoTry processApproved processPending
  split
  · rfl
  · split
    · rfl
    · split
      · rfl
      · split
        · rfl
        · split
          · split <;> rfl
          · rfl


/-- Exhaustive enumeration of what one webhook delivery can do: the five
no-write outcomes (ignored topic, rejected signature, missing payment id,
failed/empty gateway lookup, unknown order), the idempotent zero-row no-op,
the winning approved transition (with or without the booking's follow-up
write), and the pending transition. -/
theorem notificacao_cases (env : WebhookEnv) (req : WebhookReq) (db : List Pedido) :
    notificacaoPagamento env req db = ⟨200, "Ignored", db, []⟩ ∨
    notificacaoPagamento env req db = ⟨401, "Invalid signature", db, [Action.sigCheck]⟩ ∨
    notificacaoPagamento env req db = ⟨200, "Ok", db, [Action.sigCheck]⟩ ∨
    notificacaoPagamento env req db =
      ⟨200, "Ok", db, [Action.sigCheck, Action.gatewayLookup]⟩ ∨
    notificacaoPagamento env req db =
      ⟨200, "Ok", db, [Action.sigCheck, Action.gatewayLookup, Action.readOrder]⟩ ∨
    (∃ payment pedidoId, (aprovadoUpdate payment pedidoId db).2 = 0 ∧
      notificacaoPagamento env req db =
        ⟨200, "Ok", (aprovadoUpdate payment pedidoId db).1,
         [Action.sigCheck, Action.gatewayLookup, Action.readOrder,
          Action.condUpdate "EM_PRODUCAO" (aprovadoUpdate payment pedidoId db).2]⟩) ∨
    (∃ payment pedidoId db2, (aprovadoUpdate payment pedidoId db).2 ≠ 0 ∧
      (db2 = (aprovadoUpdate payment pedidoId db).1 ∨
        ∃ meId, db2 = (melhorEnvioWrite pedidoId meId
          (aprovadoUpdate payment pedidoId db).1).1) ∧
      notificacaoPagamento env req db =
        ⟨200, "Ok", db2,
         [Action.sigCheck, Action.gatewayLookup, Action.readOrder,
          Action.condUpdate "EM_PRODUCAO" (aprovadoUpdate payment pedidoId db).2,
          Action.reRead, Action.sendConfirmEmail, Action.bookCarrier]⟩) ∨
    (∃ payment pedidoId,
      notificacaoPagamento env req db =
        ⟨200, "Ok", (pendenteUpdate payment pedidoId db).1,
         [Action.sigCheck, Action.gatewayLookup, Action.readOrder,
          Action.condUpdate "PAGAMENTO_PENDENTE"
            (pendenteUpdate payment pedidoId db).2]⟩) := by
  unfold notificacaoPagamento
  by_cases ht : jsOr req.topic req.typ = some "payment"
  · rw [if_neg (by simp [ht])]
    by_cases hs : (validateMpWebhook env.hmac env.secret req).ok
    · rw [if_pos hs]
      unfold notificacaoPagamentoTry
      by_cases h1 : jsTruthy (jsOr req.id req.dataId) = false
      · rw [if_pos h1]
        right; right; left; rfl
      · rw [if_neg h1]
        cases hp : env.paymentLookup ((jsOr req.id req.dataId).getD "") with
        | none =>
          right; right; right; left; rfl
        | some payment =>
          dsimp only
          by_cases h2 : jsTruthy payment.external_reference = false
          · rw [if_pos h2]
            right; right; right; left; rfl
          · rw [if_neg h2]
            by_cases h3 : (db.filter
                (fun p => toString p.id == payment.external_reference.getD "")).isEmpty = true
            · rw [if_pos h3]
              right; right; right; right; left; rfl
            · rw [if_neg h3]
              by_cases h4 : (payment.status == "approved") = true
              · rw [if_pos h4]
                unfold processApproved
                by_cases h5 :
                    (aprovadoUpdate payment (payment.external_reference.getD "") db).2 = 0
                · rw [if_pos h5]
                  right; right; right; right; right; left
                  exact ⟨payment, payment.external_reference.getD "", h5, rfl⟩
                · rw [if_neg h5]
                  right; right; right; right; right; right; left
                  cases hbk : env.bookingResult with
                  | none =>
                    exact ⟨payment, payment.external_reference.getD "",
                      (aprovadoUpdate payment (payment.external_reference.getD "") db).1,
                      h5, Or.inl rfl, rfl⟩
                  | some meId =>
                    by_cases hme : jsTruthy meId = true
                    · exact ⟨payment, payment.external_reference.getD "",
                        (melhorEnvioWrite (payment.external_reference.getD "") meId
                          (aprovadoUpdate payment (payment.external_reference.getD "") db).1).1,
                        h5, Or.inr ⟨meId, rfl⟩, by dsimp only; rw [if_pos hme]⟩
                    · exact ⟨payment, payment.external_reference.getD "",
                        (aprovadoUpdate payment (payment.external_reference.getD "") db).1,
                        h5, Or.inl rfl, by dsimp only; rw [if_neg hme]⟩
              · rw [if_neg h4]
                right; right; right; right; right; right; right
                exact ⟨payment, payment.external_reference.getD "", rfl⟩
    · rw [if_neg hs]
      right; left; rfl
  · rw [if_pos (by simp [ht])]
    left; rfl

theorem aprovadoUpdate_zero (payment : PaymentInfo) (pid : String)
    (db : List Pedido) (h : (aprovadoUpdate payment pid db).2 = 0) :
    (aprovadoUpdate payment pid db).1 = db :=
  updateWhere_zero _ _ _ h

theorem pendenteUpdate_zero (payment : PaymentInfo) (pid : String)
    (db : List Pedido) (h : (pendenteUpdate payment pid db).2 = 0) :
    (pendenteUpdate payment pid db).1 = db :=
  updateWhere_zero _ _ _ h

theorem updateWhere_getElem (pred : Pedido → Bool) (f : Pedido → Pedido)
    (db : List Pedido) (i : Nat) (p : Pedido) (h : db[i]? = some p) :
    (updateWhere pred f db).1[i]? = some (if pred p then f p else p) := by
  simp [updateWhere, List.getElem?_map, h]

theorem updateWhere_row_status (pred : Pedido → Bool) (f : Pedido → Pedido)
    (db : List Pedido) (i : Nat) (p p' : Pedido)
    (hp : db[i]? = some p) (hp' : (updateWhere pred f db).1[i]? = some p') :
    (pred p = true ∧ p' = f p) ∨ (pred p = false ∧ p' = p) := by
  have h := updateWhere_getElem pred f db i p hp
  rw [h] at hp'
  have hpe := Option.some.inj hp'
  by_cases hpred : pred p = true
  · left
    refine ⟨hpred, ?_⟩
    rw [← hpe]
    simp [hpred]
  · right
    refine ⟨by simpa using hpred, ?_⟩
    rw [← hpe]
    simp [hpred]

theorem updateWhere_mem_image (pred : Pedido → Bool) (f : Pedido → Pedido)
    (db : List Pedido) (q : Pedido) (hq : q ∈ db) :
    (if pred q then f q else q) ∈ (updateWhere pred f db).1 :=
  List.mem_map_of_mem _ hq

/-! ## Claim C1: predecessor sets of the conditional status updates -/

/-- C1: across any single payment-webhook delivery, each order row either
keeps its status, moves to `EM_PRODUCAO` only from
`{AGUARDANDO_PAGAMENTO, PAGAMENTO_PENDENTE}`, or moves to
`PAGAMENTO_PENDENTE` only from `AGUARDANDO_PAGAMENTO`; in particular a row
already `EM_PRODUCAO` never changes status on any later payment event. -/
theorem webhook_predecessor_sets (env : WebhookEnv) (req : WebhookReq)
    (db : List Pedido) (i : Nat) (p p' : Pedido)
    (hp : db[i]? = some p)
    (hp' : (notificacaoPagamento env req db).db[i]? = some p') :
    statusStepOk p.status p'.status ∧
    (p.status = "EM_PRODUCAO" → p'.status = "EM_PRODUCAO") := by
  have main : statusStepOk p.status p'.status := by
    rcases notificacao_cases env req db with
      hc | hc | hc | hc | hc | ⟨payment, pid, hz, hc⟩ |
      ⟨payment, pid, db2, hnz, hdb2, hc⟩ | ⟨payment, pid, hc⟩
    · rw [hc] at hp'; dsimp only at hp'; rw [hp] at hp'
      exact Or.inl (congrArg Pedido.status (Option.some.inj hp')).symm
    · rw [hc] at hp'; dsimp only at hp'; rw [hp] at hp'
      exact Or.inl (congrArg Pedido.status (Option.some.inj hp')).symm
    · rw [hc] at hp'; dsimp only at hp'; rw [hp] at hp'
      exact Or.inl (congrArg Pedido.status (Option.some.inj hp')).symm
    · rw [hc] at hp'; dsimp only at hp'; rw [hp] at hp'
      exact Or.inl (congrArg Pedido.status (Option.some.inj hp')).symm
    · rw [hc] at hp'; dsimp only at hp'; rw [hp] at hp'
      exact Or.inl (congrArg Pedido.status (Option.some.inj hp')).symm
    · rw [hc] at hp'; dsimp only at hp'
      rw [aprovadoUpdate_zero payment pid db hz, hp] at hp'
      exact Or.inl (congrArg Pedido.status (Option.some.inj hp')).symm
    · rw [hc] at hp'; dsimp only at hp'
      rcases hdb2 with hdb2 | ⟨meId, hdb2⟩
      · rw [hdb2] at hp'
        rcases updateWhere_row_status _ _ db i p p' hp hp' with ⟨hpred, hfp⟩ | ⟨_, hfp⟩
        · simp only [Bool.and_eq_true, Bool.or_eq_true, beq_iff_eq] at hpred
          right; left
          exact ⟨by rw [hfp], hpred.2⟩
        · exact Or.inl (by rw [hfp])
      · rw [hdb2] at hp'
        have hq : (aprovadoUpdate payment pid db).1[i]? =
            some (if (fun r => toString r.id == pid &&
                (r.status == "AGUARDANDO_PAGAMENTO" || r.status == "PAGAMENTO_PENDENTE")) p
              then (fun r =>
                { r with
                  status := "EM_PRODUCAO"
                  mercado_pago_id := some payment.id
                  metodo_pagamento := some (metodoPagamento payment)
                  final_cartao := payment.card }) p
              else p) :=
          updateWhere_getElem _ _ db i p hp
        rcases updateWhere_row_status _ _ _ i _ p' hq hp' with ⟨_, hfp⟩ | ⟨_, hfp⟩ <;>
        · by_cases hpred : (toString p.id == pid &&
              (p.status == "AGUARDANDO_PAGAMENTO" || p.status == "PAGAMENTO_PENDENTE")) = true
          · simp only [Bool.and_eq_true, Bool.or_eq_true, beq_iff_eq] at hpred
            right; left
            refine ⟨?_, hpred.2⟩
            rw [hfp]
            simp only [Bool.and_eq_true, Bool.or_eq_true, beq_iff_eq]
            simp [hpred]
          · left
            rw [hfp]
            simp [hpred]
    · rw [hc] at hp'; dsimp only at hp'
      rcases updateWhere_row_status _ _ db i p p' hp hp' with ⟨hpred, hfp⟩ | ⟨_, hfp⟩
      · simp only [Bool.and_eq_true, beq_iff_eq] at hpred
        right; right
        exact ⟨by rw [hfp], hpred.2⟩
      · exact Or.inl (by rw [hfp])
  refine ⟨main, fun hEm => ?_⟩
  rcases main with h | ⟨h1, _⟩ | ⟨_, h2⟩
  · rw [h, hEm]
  · exact h1
  · rw [hEm] at h2
    exact absurd h2 (by decide)

/-- Witness for C1: a concrete approved-payment delivery moving an
`AGUARDANDO_PAGAMENTO` row to `EM_PRODUCAO`, with both row hypotheses
discharged by computation. -/
theorem webhook_predecessor_sets_witness :
    statusStepOk
      (Pedido.status ⟨1, "AGUARDANDO_PAGAMENTO", none, none, none, none, "", "", 0, 0, 0⟩)
      (Pedido.status ⟨1, "EM_PRODUCAO", some "pay1", some "Não especificado",
        none, none, "", "", 0, 0, 0⟩) ∧
    ((Pedido.status ⟨1, "AGUARDANDO_PAGAMENTO", none, none, none, none, "", "", 0, 0, 0⟩) =
        "EM_PRODUCAO" →
      (Pedido.status ⟨1, "EM_PRODUCAO", some "pay1", some "Não especificado",
        none, none, "", "", 0, 0, 0⟩) = "EM_PRODUCAO") :=
  webhook_predecessor_sets
    ⟨none, fun _ _ => [], fun _ => some ⟨"pay1", "approved", none, none, none, some "1"⟩,
      true, none⟩
    ⟨some "payment", none, some "77", none, none, none⟩
    [⟨1, "AGUARDANDO_PAGAMENTO", none, none, none, none, "", "", 0, 0, 0⟩]
    0
    ⟨1, "AGUARDANDO_PAGAMENTO", none, none, none, none, "", "", 0, 0, 0⟩
    ⟨1, "EM_PRODUCAO", some "pay1", some "Não especificado", none, none, "", "", 0, 0, 0⟩
    (by decide) (by decide)

/-! ## Claim C4: the webhook acknowledgment policy -/

/-- C4: one webhook delivery answers 401 exactly when the topic resolves to
`payment` and signature verification fails; in every other situation —
unsupported topic, missing payment id, payment without external reference,
unknown order, idempotent no-op, caught internal errors — it answers 200. -/
theorem notificacao_ack_spec (env : WebhookEnv) (req : WebhookReq) (db : List Pedido) :
    ((notificacaoPagamento env req db).status = 401 ↔
      (jsOr req.topic req.typ = some "payment" ∧
        (validateMpWebhook env.hmac env.secret req).ok = false)) ∧
    ((notificacaoPagamento env req db).status = 200 ∨
      (notificacaoPagamento env req db).status = 401) := by
  unfold notificacaoPagamento
  by_cases ht : jsOr req.topic req.typ = some "payment"
  · rw [if_neg (by simp [ht])]
    by_cases hs : (validateMpWebhook env.hmac env.secret req).ok = true
    · rw [if_pos hs]
      dsimp only
      rw [notificacaoPagamentoTry_status env req db]
      simp [hs]
    · rw [if_neg hs]
      have hsf : (validateMpWebhook env.hmac env.secret req).ok = false :=
        Bool.eq_false_iff.mpr hs
      simp [ht, hsf]
  · rw [if_pos (by simp [ht])]
    simp [ht]

/-! ## Claim C10: topic gating happens before signature verification -/

/-- C10: a delivery whose topic does not resolve to `payment` is
acknowledged 200 `Ignored` with no action at all — in particular signature
verification never runs and no 401 is possible — and conversely the
signature check only ever runs on `payment`-topic deliveries. -/
theorem notificacao_topic_gate (env : WebhookEnv) (req : WebhookReq)
    (db : List Pedido) :
    (jsOr req.topic req.typ ≠ some "payment" →
      notificacaoPagamento env req db = ⟨200, "Ignored", db, []⟩) ∧
    (Action.sigCheck ∈ (notificacaoPagamento env req db).trace →
      jsOr req.topic req.typ = some "payment") := by
  constructor
  · intro h
    unfold notificacaoPagamento
    rw [if_pos h]
  · intro hmem
    by_cases ht : jsOr req.topic req.typ = some "payment"
    · exact ht
    · exfalso
      unfold notificacaoPagamento at hmem
      rw [if_pos ht] at hmem
      simp at hmem

/-- Witness for C10: a `merchant_order`-topic delivery with a shared secret
configured and no signature at all is still acknowledged 200 `Ignored`. -/
theorem notificacao_topic_gate_witness :
    notificacaoPagamento
      ⟨some "shh", fun _ _ => [], fun _ => none, true, none⟩
      ⟨some "merchant_order", none, some "1", none, none, none⟩ [] =
      ⟨200, "Ignored", [], []⟩ :=
  (notificacao_topic_gate
    ⟨some "shh", fun _ _ => [], fun _ => none, true, none⟩
    ⟨some "merchant_order", none, some "1", none, none, none⟩ []).1 (by decide)

/-! ## Claim C2: the affected-row count is the sole arbiter of side effects -/

/-- C2: whenever a delivery records a conditional update that affected zero
rows, it answers 200, leaves the database untouched, and triggers neither
the confirmation email nor the carrier booking; conversely (under distinct
row ids) either side effect can only appear together with an approved
conditional update that affected exactly one row. -/
theorem webhook_row_count_arbiter (env : WebhookEnv) (req : WebhookReq)
    (db : List Pedido) :
    (∀ target n,
      Action.condUpdate target n ∈ (notificacaoPagamento env req db).trace →
      n = 0 →
      (notificacaoPagamento env req db).status = 200 ∧
      (notificacaoPagamento env req db).db = db ∧
      Action.sendConfirmEmail ∉ (notificacaoPagamento env req db).trace ∧
      Action.bookCarrier ∉ (notificacaoPagamento env req db).trace) ∧
    ((db.map (fun p => toString p.id)).Nodup →
      (Action.sendConfirmEmail ∈ (notificacaoPagamento env req db).trace ∨
        Action.bookCarrier ∈ (notificacaoPagamento env req db).trace) →
      Action.condUpdate "EM_PRODUCAO" 1 ∈ (notificacaoPagamento env req db).trace) := by
  rcases notificacao_cases env req db with
    hc | hc | hc | hc | hc | ⟨payment, pid, hz, hc⟩ |
    ⟨payment, pid, db2, hnz, hdb2, hc⟩ | ⟨payment, pid, hc⟩
  · constructor
    · intro target n hmem hn
      rw [hc] at hmem
      simp at hmem
    · intro _ hmem
      rw [hc] at hmem
      simp at hmem
  · constructor
    · intro target n hmem hn
      rw [hc] at hmem
      simp at hmem
    · intro _ hmem
      rw [hc] at hmem
      simp at hmem
  · constructor
    · intro target n hmem hn
      rw [hc] at hmem
      simp at hmem
    · intro _ hmem
      rw [hc] at hmem
      simp at hmem
  · constructor
    · intro target n hmem hn
      rw [hc] at hmem
      simp at hmem
    · intro _ hmem
      rw [hc] at hmem
      simp at hmem
  · constructor
    · intro target n hmem hn
      rw [hc] at hmem
      simp at hmem
    · intro _ hmem
      rw [hc] at hmem
      simp at hmem
  · constructor
    · intro target n hmem hn
      rw [hc]
      exact ⟨rfl, aprovadoUpdate_zero payment pid db hz, by simp, by simp⟩
    · intro _ hmem
      rw [hc] at hmem
      simp at hmem
  · constructor
    · intro target n hmem hn
      rw [hc] at hmem
      simp at hmem
      obtain ⟨-, hn2⟩ := hmem
      rw [hn] at hn2
      exact absurd hn2.symm hnz
    · intro hnodup hmem
      rw [hc]
      have hle : (aprovadoUpdate payment pid db).2 ≤ 1 := by
        have h := filter_key_length_le_one db hnodup pid
          (fun p => p.status == "AGUARDANDO_PAGAMENTO" || p.status == "PAGAMENTO_PENDENTE")
        simpa [aprovadoUpdate, updateWhere] using h
      have h1 : (aprovadoUpdate payment pid db).2 = 1 := by omega
      rw [show (⟨200, "Ok", db2,
          [Action.sigCheck, Action.gatewayLookup, Action.readOrder,
           Action.condUpdate "EM_PRODUCAO" (aprovadoUpdate payment pid db).2,
           Action.reRead, Action.sendConfirmEmail, Action.bookCarrier]⟩ :
            WebhookOutcome).trace =
          [Action.sigCheck, Action.gatewayLookup, Action.readOrder,
           Action.condUpdate "EM_PRODUCAO" (aprovadoUpdate payment pid db).2,
           Action.reRead, Action.sendConfirmEmail, Action.bookCarrier] from rfl]
      rw [h1]
      simp
  · constructor
    · intro target n hmem hn
      rw [hc] at hmem
      simp at hmem
      obtain ⟨-, hn2⟩ := hmem
      rw [hn] at hn2
      rw [hc]
      exact ⟨rfl, pendenteUpdate_zero payment pid db hn2.symm, by simp, by simp⟩
    · intro _ hmem
      rw [hc] at hmem
      simp at hmem

/-- Witness for C2: a replayed approved event against an order already
`EM_PRODUCAO` affects zero rows, answers 200, changes nothing and fires no
side effect. -/
theorem webhook_row_count_arbiter_witness :
    (notificacaoPagamento
      ⟨none, fun _ _ => [], fun _ => some ⟨"pay1", "approved", none, none, none, some "1"⟩,
        true, none⟩
      ⟨some "payment", none, some "77", none, none, none⟩
      [⟨1, "EM_PRODUCAO", some "pay1", none, none, none, "", "", 0, 0, 0⟩]).status = 200 ∧
    (notificacaoPagamento
      ⟨none, fun _ _ => [], fun _ => some ⟨"pay1", "approved", none, none, none, some "1"⟩,
        true, none⟩
      ⟨some "payment", none, some "77", none, none, none⟩
      [⟨1, "EM_PRODUCAO", some "pay1", none, none, none, "", "", 0, 0, 0⟩]).db =
      [⟨1, "EM_PRODUCAO", some "pay1", none, none, none, "", "", 0, 0, 0⟩] ∧
    Action.sendConfirmEmail ∉ (notificacaoPagamento
      ⟨none, fun _ _ => [], fun _ => some ⟨"pay1", "approved", none, none, none, some "1"⟩,
        true, none⟩
      ⟨some "payment", none, some "77", none, none, none⟩
      [⟨1, "EM_PRODUCAO", some "pay1", none, none, none, "", "", 0, 0, 0⟩]).trace ∧
    Action.bookCarrier ∉ (notificacaoPagamento
      ⟨none, fun _ _ => [], fun _ => some ⟨"pay1", "approved", none, none, none, some "1"⟩,
        true, none⟩
      ⟨some "payment", none, some "77", none, none, none⟩
      [⟨1, "EM_PRODUCAO", some "pay1", none, none, none, "", "", 0, 0, 0⟩]).trace :=
  (webhook_row_count_arbiter
    ⟨none, fun _ _ => [], fun _ => some ⟨"pay1", "approved", none, none, none, some "1"⟩,
      true, none⟩
    ⟨some "payment", none, some "77", none, none, none⟩
    [⟨1, "EM_PRODUCAO", some "pay1", none, none, none, "", "", 0, 0, 0⟩]).1
    "EM_PRODUCAO" 0 (by decide) rfl

/-! ## Specialized row lemmas for the named conditional updates -/

theorem aprovadoUpdate_getElem (payment : PaymentInfo) (pid : String)
    (db : List Pedido) (i : Nat) (p : Pedido) (hp : db[i]? = some p) :
    (aprovadoUpdate payment pid db).1[i]? =
      some (if toString p.id == pid &&
          (p.status == "AGUARDANDO_PAGAMENTO" || p.status == "PAGAMENTO_PENDENTE") then
        { p with
          status := "EM_PRODUCAO"
          mercado_pago_id := some payment.id
          metodo_pagamento := some (metodoPagamento payment)
          final_cartao := payment.card }
      else p) :=
  updateWhere_getElem _ _ db i p hp

theorem aprovadoUpdate_row_status (payment : PaymentInfo) (pid : String)
    (db : List Pedido) (i : Nat) (p p' : Pedido) (hp : db[i]? = some p)
    (hp' : (aprovadoUpdate payment pid db).1[i]? = some p') :
    ((toString p.id == pid &&
        (p.status == "AGUARDANDO_PAGAMENTO" || p.status == "PAGAMENTO_PENDENTE")) = true ∧
      p' = { p with
        status := "EM_PRODUCAO"
        mercado_pago_id := some payment.id
        metodo_pagamento := some (metodoPagamento payment)
        final_cartao := payment.card }) ∨
    ((toString p.id == pid &&
        (p.status == "AGUARDANDO_PAGAMENTO" || p.status == "PAGAMENTO_PENDENTE")) = false ∧
      p' = p) :=
  updateWhere_row_status _ _ db i p p' hp hp'

theorem aprovadoUpdate_pred_of_affected (payment : PaymentInfo) (pid : String)
    (db : List Pedido) (h : (aprovadoUpdate payment pid db).2 ≠ 0) :
    ∃ p ∈ db, (toString p.id == pid &&
      (p.status == "AGUARDANDO_PAGAMENTO" || p.status == "PAGAMENTO_PENDENTE")) = true :=
  updateWhere_pred_of_affected _ _ db h

theorem aprovadoUpdate_mem_of_pred (payment : PaymentInfo) (pid : String)
    (db : List Pedido) (p : Pedido) (hp : p ∈ db)
    (hpred : (toString p.id == pid &&
      (p.status == "AGUARDANDO_PAGAMENTO" || p.status == "PAGAMENTO_PENDENTE")) = true) :
    ({ p with
        status := "EM_PRODUCAO"
        mercado_pago_id := some payment.id
        metodo_pagamento := some (metodoPagamento payment)
        final_cartao := payment.card } : Pedido) ∈ (aprovadoUpdate payment pid db).1 :=
  updateWhere_mem_of_pred _ _ db p hp hpred

theorem melhorEnvioWrite_row_status (pid : String) (meId : Option String)
    (db : List Pedido) (i : Nat) (p p' : Pedido) (hp : db[i]? = some p)
    (hp' : (melhorEnvioWrite pid meId db).1[i]? = some p') :
    p'.status = p.status := by
  rcases updateWhere_row_status _ _ db i p p' hp hp' with ⟨_, hfp⟩ | ⟨_, hfp⟩ <;> rw [hfp]

theorem melhorEnvioWrite_mem_image (pid : String) (meId : Option String)
    (db : List Pedido) (q : Pedido) (hq : q ∈ db) :
    (if toString q.id == pid then { q with melhor_envio_id := meId } else q) ∈
      (melhorEnvioWrite pid meId db).1 :=
  updateWhere_mem_image _ _ db q hq

/-! ## Claim C7: the winning approved transition and its side effects -/

/-- C7: when a delivery wins the transition into `EM_PRODUCAO` (its
conditional update affected a nonzero number of rows), the handler re-reads
the order and then runs the confirmation email and the carrier booking in
exactly that order; whatever the side effects do (the email may fail, the
booking may throw), the response is still 200, no row's status regresses
(a row's status either stays or is `EM_PRODUCAO`), and some row ends up
`EM_PRODUCAO`. -/
theorem webhook_win_production (env : WebhookEnv) (req : WebhookReq)
    (db : List Pedido) (n : Nat)
    (hwin : Action.condUpdate "EM_PRODUCAO" n ∈ (notificacaoPagamento env req db).trace)
    (hn : n ≠ 0) :
    (notificacaoPagamento env req db).status = 200 ∧
    (notificacaoPagamento env req db).trace =
      [Action.sigCheck, Action.gatewayLookup, Action.readOrder,
       Action.condUpdate "EM_PRODUCAO" n, Action.reRead,
       Action.sendConfirmEmail, Action.bookCarrier] ∧
    (∀ (i : Nat) (p p' : Pedido), db[i]? = some p →
      (notificacaoPagamento env req db).db[i]? = some p' →
      p'.status = p.status ∨ p'.status = "EM_PRODUCAO") ∧
    (∃ p' ∈ (notificacaoPagamento env req db).db, p'.status = "EM_PRODUCAO") := by
  rcases notificacao_cases env req db with
    hc | hc | hc | hc | hc | ⟨payment, pid, hz, hc⟩ |
    ⟨payment, pid, db2, hnz, hdb2, hc⟩ | ⟨payment, pid, hc⟩
  · rw [hc] at hwin; simp at hwin
  · rw [hc] at hwin; simp at hwin
  · rw [hc] at hwin; simp at hwin
  · rw [hc] at hwin; simp at hwin
  · rw [hc] at hwin; simp at hwin
  · rw [hc] at hwin
    simp at hwin
    exact absurd (hwin.trans hz) hn
  · have hmem := hwin
    rw [hc] at hmem
    simp at hmem
    rw [hc]
    refine ⟨rfl, by rw [hmem], ?_, ?_⟩
    · intro i p p' hp hp'
      dsimp only at hp'
      rcases hdb2 with hdb2 | ⟨meId, hdb2⟩
      · rw [hdb2] at hp'
        rcases aprovadoUpdate_row_status payment pid db i p p' hp hp' with
          ⟨_, hfp⟩ | ⟨_, hfp⟩
        · right; rw [hfp]
        · left; rw [hfp]
      · rw [hdb2] at hp'
        have hst := melhorEnvioWrite_row_status pid meId
          (aprovadoUpdate payment pid db).1 i _ p'
          (aprovadoUpdate_getElem payment pid db i p hp) hp'
        rw [hst]
        by_cases hpred : (toString p.id == pid &&
            (p.status == "AGUARDANDO_PAGAMENTO" || p.status == "PAGAMENTO_PENDENTE")) = true
        · right; simp [hpred]
        · left; simp [hpred]
    · dsimp only
      obtain ⟨q, hq, hpred⟩ := aprovadoUpdate_pred_of_affected payment pid db hnz
      have hmemq := aprovadoUpdate_mem_of_pred payment pid db q hq hpred
      rcases hdb2 with hdb2 | ⟨meId, hdb2⟩
      · rw [hdb2]
        exact ⟨_, hmemq, rfl⟩
      · rw [hdb2]
        refine ⟨_, melhorEnvioWrite_mem_image pid meId _ _ hmemq, ?_⟩
        by_cases hb : (toString (Pedido.id ({ q with
            status := "EM_PRODUCAO"
            mercado_pago_id := some payment.id
            metodo_pagamento := some (metodoPagamento payment)
            final_cartao := payment.card } : Pedido)) == pid) = true
        · simp [hb]
        · simp [hb]
  · rw [hc] at hwin
    simp at hwin

/-- Witness for C7: a winning approved delivery in which the email fails and
the booking throws; the order still moves to (and stays) `EM_PRODUCAO`, the
trace shows re-read → email → booking, and the response is still 200. -/
theorem webhook_win_production_witness :
    (notificacaoPagamento
      ⟨none, fun _ _ => [], fun _ => some ⟨"pay9", "approved", none, none, none, some "2"⟩,
        false, none⟩
      ⟨some "payment", none, some "88", none, none, none⟩
      [⟨2, "PAGAMENTO_PENDENTE", none, none, none, none, "", "", 0, 0, 0⟩]).status = 200 ∧
    (notificacaoPagamento
      ⟨none, fun _ _ => [], fun _ => some ⟨"pay9", "approved", none, none, none, some "2"⟩,
        false, none⟩
      ⟨some "payment", none, some "88", none, none, none⟩
      [⟨2, "PAGAMENTO_PENDENTE", none, none, none, none, "", "", 0, 0, 0⟩]).trace =
      [Action.sigCheck, Action.gatewayLookup, Action.readOrder,
       Action.condUpdate "EM_PRODUCAO" 1, Action.reRead,
       Action.sendConfirmEmail, Action.bookCarrier] ∧
    (∀ (i : Nat) (p p' : Pedido),
      ([⟨2, "PAGAMENTO_PENDENTE", none, none, none, none, "", "", 0, 0, 0⟩] :
        List Pedido)[i]? = some p →
      (notificacaoPagamento
        ⟨none, fun _ _ => [], fun _ => some ⟨"pay9", "approved", none, none, none, some "2"⟩,
          false, none⟩
        ⟨some "payment", none, some "88", none, none, none⟩
        [⟨2, "PAGAMENTO_PENDENTE", none, none, none, none, "", "", 0, 0, 0⟩]).db[i]? =
        some p' →
      p'.status = p.status ∨ p'.status = "EM_PRODUCAO") ∧
    (∃ p' ∈ (notificacaoPagamento
      ⟨none, fun _ _ => [], fun _ => some ⟨"pay9", "approved", none, none, none, some "2"⟩,
        false, none⟩
      ⟨some "payment", none, some "88", none, none, none⟩
      [⟨2, "PAGAMENTO_PENDENTE", none, none, none, none, "", "", 0, 0, 0⟩]).db,
      p'.status = "EM_PRODUCAO") :=
  webhook_win_production
    ⟨none, fun _ _ => [], fun _ => some ⟨"pay9", "approved", none, none, none, some "2"⟩,
      false, none⟩
    ⟨some "payment", none, some "88", none, none, none⟩
    [⟨2, "PAGAMENTO_PENDENTE", none, none, none, none, "", "", 0, 0, 0⟩]
    1 (by decide) (by decide)

/-! ## Claim C3: the sweep's selection and per-row update -/

/-- C3, evaluated at the failing input: the scan's selection predicate is
exactly `status ∈ {AGUARDANDO_PAGAMENTO, PAGAMENTO_PENDENTE} ∧ deadline
passed`, but the per-row update is conditioned on the id alone — run against
a row that a concurrent webhook advanced to `EM_PRODUCAO` after the scan, it
still overwrites the status to `CANCELADO_POR_EXPIRACAO`. -/
theorem sweep_overwrites_advanced_row :
    (∀ (db : List Pedido) (now : Int) (p : Pedido),
      p ∈ expiredScan db now ↔
        p ∈ db ∧
        (p.status = "AGUARDANDO_PAGAMENTO" ∨ p.status = "PAGAMENTO_PENDENTE") ∧
        p.expiracao_pix < now) ∧
    Pedido.status ⟨7, "EM_PRODUCAO", some "pay7", none, none, none, "", "", 0, 0, 0⟩ =
      "EM_PRODUCAO" ∧
    (sweepUpdateRow 7
        [⟨7, "EM_PRODUCAO", some "pay7", none, none, none, "", "", 0, 0, 0⟩]).1.map
      Pedido.status = ["CANCELADO_POR_EXPIRACAO"] := by
  refine ⟨?_, rfl, by decide⟩
  intro db now p
  simp [expiredScan, List.mem_filter, and_assoc]

theorem criarPreferencia_foldl_sum (items : List CartItem) (a : ℚ) :
    items.foldl (fun sum item => sum + item.unit_price * item.quantity) a =
      a + (items.map (fun item => item.unit_price * item.quantity)).sum := by
  induction items generalizing a with
  | nil => simp
  | cons i rest ih =>
    simp only [List.foldl_cons, List.map_cons, List.sum_cons, ih]
    ring

/-! ## Claim C8 -/

/-- C8 counterexample: for the spec's own scenario — line items 50.00 × 2
and 30.00 × 1 with shipping 20.00 — the code's total is not 170.00. -/
theorem criarPreferencia_scenario_not_170 :
    ¬ criarPreferenciaTotal [⟨50, 2⟩, ⟨30, 1⟩] 20 = 170 := by
  norm_num [criarPreferenciaTotal]

/-- C8 (amended): the stored total always equals the sum over line items of
unit price times quantity plus the shipping cost; for the scenario's two
line items (50.00 × 2 and 30.00 × 1) with shipping cost 20.00 it equals
150.00. -/
theorem criarPedido_total_spec :
    (∀ (items : List CartItem) (shipmentCost : ℚ) (cpf email : String)
        (nowMs : Int) (newId : Nat),
      (criarPedido items shipmentCost cpf email nowMs newId).valor_total =
        (items.map (fun item => item.unit_price * item.quantity)).sum + shipmentCost) ∧
    criarPreferenciaTotal [⟨50, 2⟩, ⟨30, 1⟩] 20 = 150 := by
  constructor
  · intro items shipmentCost cpf email nowMs newId
    show criarPreferenciaTotal items shipmentCost = _
    rw [criarPreferenciaTotal, criarPreferencia_foldl_sum]
    ring
  · norm_num [criarPreferenciaTotal]

/-! ## Claim C9 -/

/-- C9: any two lookup requests whose identities match no order — whether
the CPF alone is wrong, the email alone is wrong, or both — get the very
same uniform not-found response, revealing nothing about which field
failed. -/
theorem rastrearPedido_uniform_not_found (db : List Pedido)
    (cpf1 email1 cpf2 email2 : Option String)
    (h1c : jsTruthy cpf1 = true) (h1e : jsTruthy email1 = true)
    (h2c : jsTruthy cpf2 = true) (h2e : jsTruthy email2 = true)
    (hno1 : ∀ p ∈ db,
      ¬(p.cpf_cliente = onlyDigits (cpf1.getD "") ∧ p.email_cliente = email1.getD ""))
    (hno2 : ∀ p ∈ db,
      ¬(p.cpf_cliente = onlyDigits (cpf2.getD "") ∧ p.email_cliente = email2.getD "")) :
    rastrearPedido db cpf1 email1 = rastrearPedido db cpf2 email2 ∧
    rastrearPedido db cpf1 email1 =
      RastreioResp.notFound "Nenhum pedido encontrado para o CPF e e-mail informados." := by
  have hf1 : db.filter (fun p =>
      p.cpf_cliente == onlyDigits (cpf1.getD "") && p.email_cliente == email1.getD "") = [] := by
    rw [List.filter_eq_nil_iff]
    intro p hp hcontra
    simp only [Bool.and_eq_true, beq_iff_eq] at hcontra
    exact hno1 p hp hcontra
  have hf2 : db.filter (fun p =>
      p.cpf_cliente == onlyDigits (cpf2.getD "") && p.email_cliente == email2.getD "") = [] := by
    rw [List.filter_eq_nil_iff]
    intro p hp hcontra
    simp only [Bool.and_eq_true, beq_iff_eq] at hcontra
    exact hno2 p hp hcontra
  unfold rastrearPedido
  rw [if_neg (by simp [h1c, h1e]), if_neg (by simp [h2c, h2e]), hf1, hf2]
  exact ⟨rfl, rfl⟩

/-- Witness for C9: against a store holding one order (CPF `111`, email
`a@b`), a wrong-CPF request and a wrong-email request receive the identical
uniform not-found response. -/
theorem rastrearPedido_uniform_not_found_witness :
    rastrearPedido
      [⟨1, "ENVIADO", none, none, none, none, "111", "a@b", 0, 0, 0⟩]
      (some "222") (some "a@b") =
    rastrearPedido
      [⟨1, "ENVIADO", none, none, none, none, "111", "a@b", 0, 0, 0⟩]
      (some "111") (some "x@y") ∧
    rastrearPedido
      [⟨1, "ENVIADO", none, none, none, none, "111", "a@b", 0, 0, 0⟩]
      (some "222") (some "a@b") =
      RastreioResp.notFound "Nenhum pedido encontrado para o CPF e e-mail informados." :=
  rastrearPedido_uniform_not_found
    [⟨1, "ENVIADO", none, none, none, none, "111", "a@b", 0, 0, 0⟩]
    (some "222") (some "a@b") (some "111") (some "x@y")
    (by decide) (by decide) (by decide) (by decide) (by decide) (by decide)

end Carlton

